import Mathlib

/-
Verification development for the hanp_local_planner local planner
(src/src/hanp_local_planner.cpp).  The planner state and the methods of
HANPLocalPlanner are shallowly embedded: poses and velocities are rational
triples, the external collaborators (costmap, odometry, the latched
stop-rotate controller, the scored sampling planner and the trajectory
generator of the base_local_planner library, transforms) are modelled as
oracle fields of an environment record, and each C++ method becomes a pure
Lean function from state and environment to results and a new state.
-/

/-- A pose in the planning frame: planar position and yaw.  The same triple
is used for body-frame velocities, mirroring the C++ use of a stamped
transform for both poses and velocities. -/
structure PoseQ where
  x : ℚ
  y : ℚ
  th : ℚ
deriving DecidableEq

/-- A velocity command: linear.x, linear.y, angular.z of the emitted twist. -/
structure Twist where
  lx : ℚ
  ly : ℚ
  az : ℚ
deriving DecidableEq

/-- A candidate trajectory as used by the planner: the constant body-frame
velocity that generated it, its accumulated cost (negative means
infeasible/rejected) and its forward-simulated points. -/
structure Traj where
  xv : ℚ
  yv : ℚ
  thetav : ℚ
  cost : ℚ
  points : List PoseQ
deriving DecidableEq

/-- The kinodynamic limits copied field by field from the configuration in
reconfigureCB. -/
structure LimitsQ where
  max_trans_vel : ℚ
  min_trans_vel : ℚ
  max_vel_x : ℚ
  min_vel_x : ℚ
  max_vel_y : ℚ
  min_vel_y : ℚ
  max_rot_vel : ℚ
  min_rot_vel : ℚ
  acc_lim_x : ℚ
  acc_lim_y : ℚ
  acc_lim_theta : ℚ
  acc_limit_trans : ℚ
  xy_goal_tolerance : ℚ
  yaw_goal_tolerance : ℚ
  prune_plan : Bool
  trans_stopped_vel : ℚ
  rot_stopped_vel : ℚ
deriving DecidableEq

/-- The dynamic-reconfigure configuration record read by reconfigureCB. -/
structure ConfigQ where
  restore_defaults : Bool
  max_trans_vel : ℚ
  min_trans_vel : ℚ
  max_vel_x : ℚ
  min_vel_x : ℚ
  max_vel_y : ℚ
  min_vel_y : ℚ
  max_rot_vel : ℚ
  min_rot_vel : ℚ
  acc_lim_x : ℚ
  acc_lim_y : ℚ
  acc_lim_theta : ℚ
  acc_limit_trans : ℚ
  xy_goal_tolerance : ℚ
  yaw_goal_tolerance : ℚ
  prune_plan : Bool
  trans_stopped_vel : ℚ
  rot_stopped_vel : ℚ
  sim_time : ℚ
  sim_granularity : ℚ
  angular_sim_granularity : ℚ
  use_dwa : Bool
  path_distance_bias : ℚ
  goal_distance_bias : ℚ
  occdist_scale : ℚ
  stop_time_buffer : ℚ
  oscillation_reset_dist : ℚ
  oscillation_reset_angle : ℚ
  forward_point_distance : ℚ
  max_scaling_factor : ℚ
  scaling_speed : ℚ
  vx_samples : ℤ
  vy_samples : ℤ
  vth_samples : ℤ
deriving DecidableEq

/-- Lock status of one oscillation axis. -/
inductive LockDir where
  | unlocked
  | posLocked
  | negLocked
deriving DecidableEq

/-- Modelled from the spec: one axis of the oscillation guard of the
base_local_planner OscillationCostFunction (not under src/): the lock status
for the axis plus the pose at which the lock was set. -/
structure OscAxis where
  dir : LockDir
  lockX : ℚ
  lockY : ℚ
  lockTh : ℚ
deriving DecidableEq

/-- Modelled from the spec: the full oscillation-guard state, one axis each
for x, y and theta. -/
structure OscState where
  axX : OscAxis
  axY : OscAxis
  axTh : OscAxis
deriving DecidableEq

/-- The data with which generator_.initialise is called: current pose,
current velocity, goal, limits and per-axis sample counts. -/
structure GenInit where
  pos : PoseQ
  vel : PoseQ
  goal : PoseQ
  limits : LimitsQ
  vsamples : ℤ × ℤ × ℤ
deriving DecidableEq

/-- The persistent members of HANPLocalPlanner that the claims are about. -/
structure PlannerState where
  initialized : Bool
  setup : Bool
  default_config : ConfigQ
  limits : LimitsQ
  plannerUtilPlan : List PoseQ
  global_plan : List PoseQ
  latched : Bool
  osc : OscState
  oscResetDist : ℚ
  oscResetAngle : ℚ
  pdistScale : ℚ
  gdistScale : ℚ
  occdistScale : ℚ
  pathScale : ℚ
  alignScale : ℚ
  goalScale : ℚ
  goalFrontScale : ℚ
  obstacleScale : ℚ
  pathTargets : List PoseQ
  goalTargets : List PoseQ
  goalFrontTargets : List PoseQ
  alignTargets : List PoseQ
  forwardPointDistance : ℚ
  cheatFactor : ℚ
  stopTimeBuffer : ℚ
  simTime : ℚ
  simGranularity : ℚ
  angularSimGranularity : ℚ
  useDwa : Bool
  obstacleMaxTransVel : ℚ
  obstacleMaxScalingFactor : ℚ
  obstacleScalingSpeed : ℚ
  vsamples : ℤ × ℤ × ℤ
  xShiftGoalFront : ℚ
  xShiftAlign : ℚ
  obstacleFootprint : List (ℚ × ℚ)
  publishTrajPc : Bool
  publishCostGridPc : Bool
  trajCloud : List (ℚ × ℚ × ℚ × ℚ)
  resultTraj : Traj
  genInit : Option GenInit
deriving DecidableEq

/-- The external collaborators, modelled as oracles: pose and plan sources,
the costmap resolution, the latched stop-rotate controller, the scored
sampling planner and the trajectory generator of base_local_planner, the
plan store of planner_util_, and the trigonometric library functions used
to offset the goal-front target point. -/
structure Env where
  getRobotPose : Option PoseQ
  getLocalPlan : PoseQ → Option (List PoseQ)
  getRobotVel : PoseQ
  resolution : ℚ
  isPositionReached : PoseQ → Bool
  latchedStopRotate : PoseQ → Bool × Twist
  latchedIsGoalReached : PoseQ → Bool
  findBestTrajectory : GenInit → Traj × List Traj
  generateTrajectory : GenInit → PoseQ → PoseQ → PoseQ → Traj
  scoreTrajectory : Traj → ℚ
  planUtilSetPlanOk : List PoseQ → Bool
  robotFootprint : List (ℚ × ℚ)
  cosQ : ℚ → ℚ
  sinQ : ℚ → ℚ
  atan2Q : ℚ → ℚ → ℚ

/-- Which of the two command producers ran during a cycle. -/
inductive CycleEvent where
  | latchedControllerInvoked
  | searchInvoked
deriving DecidableEq

/-- The outcome of a command-computing call: the returned flag, the command
out-parameter, the planner state afterwards and the producers that ran. -/
structure CycleResult where
  ok : Bool
  cmd : Twist
  state : PlannerState
  events : List CycleEvent
deriving DecidableEq

/-- Squared planar distance. -/
def sqDistQ (x1 y1 x2 y2 : ℚ) : ℚ := (x1 - x2) * (x1 - x2) + (y1 - y2) * (y1 - y2)

/-- Last pose of a plan (the goal pose); plans reaching this point are
non-empty in the guarded control flow, the default is never exercised there. -/
def lastPoseD (l : List PoseQ) : PoseQ := l.getLastD ⟨0, 0, 0⟩

/-- Modelled from the spec: resetOscillationFlags of the base_local_planner
OscillationCostFunction (not under src/) clears every per-axis lock. -/
def resetOscillationFlags (o : OscState) : OscState :=
  ⟨⟨LockDir.unlocked, o.axX.lockX, o.axX.lockY, o.axX.lockTh⟩,
   ⟨LockDir.unlocked, o.axY.lockX, o.axY.lockY, o.axY.lockTh⟩,
   ⟨LockDir.unlocked, o.axTh.lockX, o.axTh.lockY, o.axTh.lockTh⟩⟩

/-- Modelled from the spec: the position-based reset of one oscillation
axis — a lock is cleared when the robot has moved beyond the configured
linear reset distance (for x/y; isTheta = false) or angular reset distance
(for theta; isTheta = true) from the pose at which the lock was set. -/
def axisResetIfFar (a : OscAxis) (pos : PoseQ) (rd ra : ℚ) (isTheta : Bool) : OscAxis :=
  match a.dir with
  | LockDir.unlocked => a
  | _ =>
    if (if isTheta then (pos.th - a.lockTh) * (pos.th - a.lockTh) > ra * ra
        else sqDistQ pos.x pos.y a.lockX a.lockY > rd * rd) then
      ⟨LockDir.unlocked, a.lockX, a.lockY, a.lockTh⟩
    else a

/-- Modelled from the spec: the lock-recording transition of one axis — if
the selected velocity has a sign opposite to a currently locked sign and
its magnitude exceeds the stopped threshold for that axis, a new lock is
recorded in the opposite sign together with the current pose. -/
def axisSetLock (a : OscAxis) (v : ℚ) (thresh : ℚ) (pos : PoseQ) : OscAxis :=
  match a.dir with
  | LockDir.unlocked => a
  | LockDir.posLocked =>
    if v < 0 ∧ thresh < -v then ⟨LockDir.posLocked, pos.x, pos.y, pos.th⟩ else a
  | LockDir.negLocked =>
    if 0 < v ∧ thresh < v then ⟨LockDir.negLocked, pos.x, pos.y, pos.th⟩ else a

/-- Modelled from the spec: updateOscillationFlags of the base_local_planner
OscillationCostFunction (not under src/): first each locked axis is cleared
when the robot has moved beyond the reset distance/angle from its lock pose;
then, for a feasible selected trajectory, new locks are recorded from the
selected velocity signs against the per-axis stopped thresholds. -/
def updateOscillationFlags (o : OscState) (pos : PoseQ) (t : Traj)
    (rd ra transStop rotStop : ℚ) : OscState :=
  let o1 : OscState :=
    ⟨axisResetIfFar o.axX pos rd ra false,
     axisResetIfFar o.axY pos rd ra false,
     axisResetIfFar o.axTh pos rd ra true⟩
  if t.cost < 0 then o1
  else
    ⟨axisSetLock o1.axX t.xv transStop pos,
     axisSetLock o1.axY t.yv transStop pos,
     axisSetLock o1.axTh t.thetav rotStop pos⟩

/-- The configuration actually applied by reconfigureCB: when the planner is
set up and restore_defaults is requested, the stored default configuration
(with restore_defaults cleared) replaces the supplied one. -/
def appliedConfig (config0 : ConfigQ) (s : PlannerState) : ConfigQ :=
  if s.setup && config0.restore_defaults then
    { s.default_config with restore_defaults := false }
  else config0

/-- The limits record built field by field in reconfigureCB. -/
def limitsOfConfig (c : ConfigQ) : LimitsQ :=
  ⟨c.max_trans_vel, c.min_trans_vel, c.max_vel_x, c.min_vel_x, c.max_vel_y,
   c.min_vel_y, c.max_rot_vel, c.min_rot_vel, c.acc_lim_x, c.acc_lim_y,
   c.acc_lim_theta, c.acc_limit_trans, c.xy_goal_tolerance,
   c.yaw_goal_tolerance, c.prune_plan, c.trans_stopped_vel, c.rot_stopped_vel⟩

/-- Diagnostics recorded when a non-positive sample count is coerced to 1. -/
inductive ConfigWarning where
  | vxSamplesCoerced
  | vySamplesCoerced
  | vthSamplesCoerced
deriving DecidableEq

/-- HANPLocalPlanner::reconfigureCB: applies (possibly default-restored)
configuration, copies the limits, stores the critic biases and sets each
critic scale from the costmap resolution, stores the oscillation reset
thresholds and forward point distance, and coerces each non-positive
per-axis sample count to 1 with a warning diagnostic. -/
def reconfigureCB (env : Env) (config0 : ConfigQ) (s : PlannerState) :
    PlannerState × List ConfigWarning :=
  let config := appliedConfig config0 s
  let s0 := if s.setup then s else { s with default_config := config, setup := true }
  let resolution := env.resolution
  let vx := if config.vx_samples ≤ 0 then (1 : ℤ) else config.vx_samples
  let vy := if config.vy_samples ≤ 0 then (1 : ℤ) else config.vy_samples
  let vth := if config.vth_samples ≤ 0 then (1 : ℤ) else config.vth_samples
  let warns :=
    (if config.vx_samples ≤ 0 then [ConfigWarning.vxSamplesCoerced] else []) ++
    (if config.vy_samples ≤ 0 then [ConfigWarning.vySamplesCoerced] else []) ++
    (if config.vth_samples ≤ 0 then [ConfigWarning.vthSamplesCoerced] else [])
  ({ s0 with
      limits := limitsOfConfig config,
      simTime := config.sim_time,
      simGranularity := config.sim_granularity,
      angularSimGranularity := config.angular_sim_granularity,
      useDwa := config.use_dwa,
      pdistScale := config.path_distance_bias,
      pathScale := resolution * config.path_distance_bias * (1 / 2),
      alignScale := resolution * config.path_distance_bias * (1 / 2),
      gdistScale := config.goal_distance_bias,
      goalScale := resolution * config.goal_distance_bias * (1 / 2),
      goalFrontScale := resolution * config.goal_distance_bias * (1 / 2),
      occdistScale := config.occdist_scale,
      obstacleScale := resolution * config.occdist_scale,
      stopTimeBuffer := config.stop_time_buffer,
      oscResetDist := config.oscillation_reset_dist,
      oscResetAngle := config.oscillation_reset_angle,
      forwardPointDistance := config.forward_point_distance,
      xShiftGoalFront := config.forward_point_distance,
      xShiftAlign := config.forward_point_distance,
      obstacleMaxTransVel := config.max_trans_vel,
      obstacleMaxScalingFactor := config.max_scaling_factor,
      obstacleScalingSpeed := config.scaling_speed,
      vsamples := (vx, vy, vth) }, warns)

/-- HANPLocalPlanner::setPlan: on an initialized planner, resets the latch,
resets the oscillation flags and delegates the plan replacement to
planner_util_ (modelled from the spec: planner_util_.setPlan, not under
src/, replaces the stored global plan and reports success/failure). -/
def setPlan (env : Env) (orig_global_plan : List PoseQ) (s : PlannerState) :
    Bool × PlannerState :=
  if s.initialized then
    (env.planUtilSetPlanOk orig_global_plan,
     { s with latched := false,
              osc := resetOscillationFlags s.osc,
              plannerUtilPlan := orig_global_plan })
  else (false, s)

/-- HANPLocalPlanner::isGoalReached: false when uninitialized or when the
robot pose cannot be obtained, otherwise the latched controller's check. -/
def isGoalReached (env : Env) (s : PlannerState) : Bool :=
  if s.initialized then
    match env.getRobotPose with
    | none => false
    | some p => env.latchedIsGoalReached p
  else false

/-- HANPLocalPlanner::updatePlanAndLocalCosts: stores the new plan, sets the
path/goal critic targets to it, builds the goal-front plan by offsetting the
last pose toward the goal direction, and activates the alignment critic
(scale resolution * path bias * 0.5, targets the plan) exactly when the
squared distance to the goal exceeds fpd * fpd * cheat factor, forcing its
scale to zero otherwise. -/
def updatePlanAndLocalCosts (env : Env) (global_pose : PoseQ)
    (new_plan : List PoseQ) (s : PlannerState) : PlannerState :=
  let gp := new_plan
  let goal_pose := lastPoseD gp
  let sq_dist := sqDistQ global_pose.x global_pose.y goal_pose.x goal_pose.y
  let angle_to_goal := env.atan2Q (goal_pose.y - global_pose.y) (goal_pose.x - global_pose.x)
  let shifted : PoseQ :=
    ⟨goal_pose.x + s.forwardPointDistance * env.cosQ angle_to_goal,
     goal_pose.y + s.forwardPointDistance * env.sinQ angle_to_goal,
     goal_pose.th⟩
  let front_plan := gp.dropLast ++ [shifted]
  let s1 := { s with global_plan := gp, pathTargets := gp, goalTargets := gp,
                     goalFrontTargets := front_plan }
  if sq_dist > s.forwardPointDistance * s.forwardPointDistance * s.cheatFactor then
    { s1 with alignScale := env.resolution * s.pdistScale * (1 / 2),
              alignTargets := gp }
  else
    { s1 with alignScale := 0 }

/-- HANPLocalPlanner::checkTrajectory: resets the oscillation flags, then
generates and scores the single supplied velocity sample, returning whether
its cost is non-negative. -/
def checkTrajectory (env : Env) (pos vel vel_samples : PoseQ)
    (s : PlannerState) : Bool × PlannerState :=
  let s1 := { s with osc := resetOscillationFlags s.osc }
  let goal_pose := lastPoseD s1.global_plan
  let gi : GenInit := ⟨pos, vel, goal_pose, s1.limits, s1.vsamples⟩
  let s2 := { s1 with genInit := some gi }
  let traj := env.generateTrajectory gi pos vel vel_samples
  let cost := env.scoreTrajectory traj
  (decide (0 ≤ cost), s2)

/-- The generator initialisation record built inside findBestPath. -/
def mainGenInit (pos vel : PoseQ) (s : PlannerState) : GenInit :=
  ⟨pos, vel, lastPoseD s.global_plan, s.limits, s.vsamples⟩

/-- The diagnostic trajectory-cloud points built from the explored
trajectories: feasible trajectories only, one point per trajectory point. -/
def trajCloudPoints (ts : List Traj) : List (ℚ × ℚ × ℚ × ℚ) :=
  (ts.filter (fun t => decide (0 ≤ t.cost))).flatMap
    (fun t => t.points.map (fun p => (p.x, p.y, p.th, t.cost)))

/-- The result of findBestPath: the best trajectory, the drive velocities
written to the out-parameter, the state afterwards and the producer ran. -/
structure FindBestResult where
  traj : Traj
  drive : PoseQ
  state : PlannerState
  events : List CycleEvent
deriving DecidableEq

/-- HANPLocalPlanner::findBestPath: sets the obstacle footprint, initialises
the generator, runs the scored sampling search, optionally rebuilds the
diagnostic trajectory cloud (publish_traj_pc_) and publishes the cost grid
(publish_cost_grid_pc_), updates the oscillation flags from the selected
trajectory, and sets the drive velocities — the identity transform when the
winning cost is negative, the winning velocities otherwise. -/
def findBestPath (env : Env) (pos vel : PoseQ) (footprint : List (ℚ × ℚ))
    (s : PlannerState) : FindBestResult :=
  let s0 := { s with obstacleFootprint := footprint }
  let gi := mainGenInit pos vel s
  let s1 := { s0 with genInit := some gi }
  let res := env.findBestTrajectory gi
  let result_traj := res.1
  let all_explored := res.2
  let s2 := if s1.publishTrajPc then { s1 with trajCloud := trajCloudPoints all_explored } else s1
  let s3 := { s2 with
      osc := updateOscillationFlags s2.osc pos result_traj s2.oscResetDist
               s2.oscResetAngle s2.limits.trans_stopped_vel s2.limits.rot_stopped_vel,
      resultTraj := result_traj }
  let drive : PoseQ :=
    if result_traj.cost < 0 then ⟨0, 0, 0⟩
    else ⟨result_traj.xv, result_traj.yv, result_traj.thetav⟩
  ⟨result_traj, drive, s3, [CycleEvent.searchInvoked]⟩

/-- HANPLocalPlanner::hanpComputeVelocityCommands: fails when uninitialized;
otherwise reads the robot velocity, runs findBestPath, copies the drive
velocities into cmd_vel, and returns false (after publishing an empty local
plan) when the winning cost is negative, true otherwise. -/
def hanpComputeVelocityCommands (env : Env) (global_pose : PoseQ)
    (cmd0 : Twist) (s : PlannerState) : CycleResult :=
  if s.initialized then
    let robot_vel := env.getRobotVel
    let fb := findBestPath env global_pose robot_vel env.robotFootprint s
    let cmd : Twist := ⟨fb.drive.x, fb.drive.y, fb.drive.th⟩
    if fb.traj.cost < 0 then ⟨false, cmd, fb.state, fb.events⟩
    else ⟨true, cmd, fb.state, fb.events⟩
  else ⟨false, cmd0, s, []⟩

/-- HANPLocalPlanner::computeVelocityCommands: fails (leaving state alone)
when the pose or the local plan is unavailable or the plan is empty;
otherwise updates the plan and local costs and delegates either to the
latched stop-rotate controller (when the position is reached) or to
hanpComputeVelocityCommands. -/
def computeVelocityCommands (env : Env) (cmd0 : Twist) (s : PlannerState) :
    CycleResult :=
  match env.getRobotPose with
  | none => ⟨false, cmd0, s, []⟩
  | some current_pose =>
    match env.getLocalPlan current_pose with
    | none => ⟨false, cmd0, s, []⟩
    | some transformed_plan =>
      if transformed_plan.isEmpty then ⟨false, cmd0, s, []⟩
      else
        let s1 := updatePlanAndLocalCosts env current_pose transformed_plan s
        if env.isPositionReached current_pose then
          let r := env.latchedStopRotate current_pose
          ⟨r.1, r.2, s1, [CycleEvent.latchedControllerInvoked]⟩
        else
          hanpComputeVelocityCommands env current_pose cmd0 s1

/-
Concrete fixtures used by witnesses and counterexamples.
-/

/-- The origin pose, also used as a zero velocity. -/
def pose0 : PoseQ := ⟨0, 0, 0⟩

/-- The zero twist. -/
def twist0 : Twist := ⟨0, 0, 0⟩

/-- A nonzero twist, used as a stale out-parameter value. -/
def twist1 : Twist := ⟨1, 2, 3⟩

/-- A trivial feasible trajectory. -/
def trajZero : Traj := ⟨0, 0, 0, 0, []⟩

/-- An infeasible trajectory (negative sentinel cost). -/
def trajNeg : Traj := ⟨0, 0, 0, -1, []⟩

/-- A concrete limits record. -/
def limitsBase : LimitsQ :=
  { max_trans_vel := 1, min_trans_vel := 0, max_vel_x := 1, min_vel_x := -1,
    max_vel_y := 1, min_vel_y := -1, max_rot_vel := 1, min_rot_vel := -1,
    acc_lim_x := 1, acc_lim_y := 1, acc_lim_theta := 1, acc_limit_trans := 1,
    xy_goal_tolerance := 1 / 10, yaw_goal_tolerance := 1 / 10, prune_plan := false,
    trans_stopped_vel := 1 / 10, rot_stopped_vel := 1 / 10 }

/-- A concrete configuration record. -/
def cfgBase : ConfigQ :=
  { restore_defaults := false, max_trans_vel := 1, min_trans_vel := 0,
    max_vel_x := 1, min_vel_x := -1, max_vel_y := 1, min_vel_y := -1,
    max_rot_vel := 1, min_rot_vel := -1, acc_lim_x := 1, acc_lim_y := 1,
    acc_lim_theta := 1, acc_limit_trans := 1, xy_goal_tolerance := 1 / 10,
    yaw_goal_tolerance := 1 / 10, prune_plan := false,
    trans_stopped_vel := 1 / 10, rot_stopped_vel := 1 / 10, sim_time := 2,
    sim_granularity := 1 / 40, angular_sim_granularity := 1 / 10,
    use_dwa := false, path_distance_bias := 32, goal_distance_bias := 24,
    occdist_scale := 1 / 100, stop_time_buffer := 1 / 5,
    oscillation_reset_dist := 1 / 20, oscillation_reset_angle := 1 / 5,
    forward_point_distance := 13 / 40, max_scaling_factor := 1 / 5,
    scaling_speed := 1 / 4, vx_samples := 3, vy_samples := 10,
    vth_samples := 20 }

/-- The fully unlocked oscillation state. -/
def oscUnlockedAll : OscState :=
  ⟨⟨LockDir.unlocked, 0, 0, 0⟩, ⟨LockDir.unlocked, 0, 0, 0⟩,
   ⟨LockDir.unlocked, 0, 0, 0⟩⟩

/-- An oscillation state with the x axis positively locked at the origin. -/
def oscXLocked : OscState :=
  ⟨⟨LockDir.posLocked, 0, 0, 0⟩, ⟨LockDir.unlocked, 0, 0, 0⟩,
   ⟨LockDir.unlocked, 0, 0, 0⟩⟩

/-- A concrete initialized planner state. -/
def sBase : PlannerState :=
  { initialized := true, setup := true, default_config := cfgBase,
    limits := limitsBase, plannerUtilPlan := [], global_plan := [pose0],
    latched := false, osc := oscUnlockedAll, oscResetDist := 1 / 20,
    oscResetAngle := 1 / 5, pdistScale := 32, gdistScale := 24,
    occdistScale := 1 / 100, pathScale := 0, alignScale := 0, goalScale := 0,
    goalFrontScale := 0, obstacleScale := 0, pathTargets := [],
    goalTargets := [], goalFrontTargets := [], alignTargets := [],
    forwardPointDistance := 13 / 40, cheatFactor := 1, stopTimeBuffer := 1 / 5,
    simTime := 2, simGranularity := 1 / 40, angularSimGranularity := 1 / 10,
    useDwa := false, obstacleMaxTransVel := 1, obstacleMaxScalingFactor := 1 / 5,
    obstacleScalingSpeed := 1 / 4, vsamples := (3, 10, 20),
    xShiftGoalFront := 13 / 40, xShiftAlign := 13 / 40, obstacleFootprint := [],
    publishTrajPc := false, publishCostGridPc := false, trajCloud := [],
    resultTraj := trajZero, genInit := none }

/-- A concrete benign environment. -/
def envBase : Env :=
  { getRobotPose := some pose0,
    getLocalPlan := fun _ => some [⟨1, 1, 0⟩],
    getRobotVel := pose0,
    resolution := 1,
    isPositionReached := fun _ => false,
    latchedStopRotate := fun _ => (true, twist0),
    latchedIsGoalReached := fun _ => false,
    findBestTrajectory := fun _ => (⟨1 / 2, 0, 0, 5, [pose0]⟩, []),
    generateTrajectory := fun _ _ _ _ => trajZero,
    scoreTrajectory := fun _ => 1,
    planUtilSetPlanOk := fun _ => true,
    robotFootprint := [],
    cosQ := fun _ => 1,
    sinQ := fun _ => 0,
    atan2Q := fun _ _ => 0 }

/-- An environment whose trajectory search finds no feasible candidate. -/
def envNoFeasible : Env :=
  { envBase with findBestTrajectory := fun _ => (trajNeg, []) }

/-- An environment whose pose source fails. -/
def envNoPose : Env := { envBase with getRobotPose := none }

/-- A state with an oscillation lock set at the robot's current position and
a reset distance of 1: the robot has not moved beyond the reset distance. -/
def s3cex : PlannerState := { sBase with osc := oscXLocked, oscResetDist := 1 }

/-- A state with forward point distance 1, cheat factor 4 and path bias 1,
exercising the distance-threshold branch of updatePlanAndLocalCosts. -/
def s4cex : PlannerState :=
  { sBase with forwardPointDistance := 1, cheatFactor := 4, pdistScale := 1 }

/-- An uninitialized planner state (pathTargets empty). -/
def s8cex : PlannerState := { sBase with initialized := false }

/-- A configuration with non-positive sample counts on every axis. -/
def cfgNeg : ConfigQ :=
  { cfgBase with vx_samples := 0, vy_samples := -2, vth_samples := -5 }

/-
Helper lemmas shared by the claim proofs.
-/

/-- updatePlanAndLocalCosts never changes the initialized flag. -/
theorem updatePlanAndLocalCosts_initialized (env : Env) (gp : PoseQ)
    (plan : List PoseQ) (s : PlannerState) :
    (updatePlanAndLocalCosts env gp plan s).initialized = s.initialized := by
  simp only [updatePlanAndLocalCosts]
  split <;> rfl

/-- A locked axis within the linear reset distance is not cleared by the
position-based reset step. -/
theorem axisResetIfFar_near_lin (a : OscAxis) (pos : PoseQ) (rd ra : ℚ)
    (h : sqDistQ pos.x pos.y a.lockX a.lockY ≤ rd * rd) :
    axisResetIfFar a pos rd ra false = a := by
  unfold axisResetIfFar
  have hne : ¬ (if (false : Bool) = true
      then (pos.th - a.lockTh) * (pos.th - a.lockTh) > ra * ra
      else sqDistQ pos.x pos.y a.lockX a.lockY > rd * rd) := by
    simpa using not_lt.mpr h
  split <;> first | rfl | rw [if_neg hne]

/-- A locked theta axis within the angular reset distance is not cleared by
the position-based reset step. -/
theorem axisResetIfFar_near_ang (a : OscAxis) (pos : PoseQ) (rd ra : ℚ)
    (h : (pos.th - a.lockTh) * (pos.th - a.lockTh) ≤ ra * ra) :
    axisResetIfFar a pos rd ra true = a := by
  unfold axisResetIfFar
  have hne : ¬ (if (true : Bool) = true
      then (pos.th - a.lockTh) * (pos.th - a.lockTh) > ra * ra
      else sqDistQ pos.x pos.y a.lockX a.lockY > rd * rd) := by
    simpa using not_lt.mpr h
  split <;> first | rfl | rw [if_neg hne]

/-- The lock-recording step never unlocks a locked axis. -/
theorem axisSetLock_dir_ne (a : OscAxis) (v th : ℚ) (pos : PoseQ)
    (h : a.dir ≠ LockDir.unlocked) :
    (axisSetLock a v th pos).dir ≠ LockDir.unlocked := by
  unfold axisSetLock
  split
  · exact h
  · split
    · simp
    · exact h
  · split
    · simp
    · exact h

/-
Claim theorems.
-/

/-- Claim C1: in every control cycle of computeVelocityCommands that passes
the precondition checks (initialized planner, pose obtained, non-empty
local plan), exactly one of the two command producers runs: the latched
stop-rotate controller when isPositionReached holds, otherwise the scored
sampling search of hanpComputeVelocityCommands/findBestPath. -/
theorem C1_exactly_one_producer (env : Env) (cmd0 : Twist) (s : PlannerState)
    (p : PoseQ) (plan : List PoseQ)
    (hinit : s.initialized = true)
    (hpose : env.getRobotPose = some p)
    (hplan : env.getLocalPlan p = some plan)
    (hne : plan ≠ []) :
    (computeVelocityCommands env cmd0 s).events =
      if env.isPositionReached p then [CycleEvent.latchedControllerInvoked]
      else [CycleEvent.searchInvoked] := by
  cases plan with
  | nil => exact absurd rfl hne
  | cons a l =>
    simp only [computeVelocityCommands, hpose, hplan, List.isEmpty_cons,
      Bool.false_eq_true, if_false]
    cases hpr : env.isPositionReached p with
    | true => rfl
    | false =>
      have h1 : (updatePlanAndLocalCosts env p (a :: l) s).initialized = true := by
        rw [updatePlanAndLocalCosts_initialized, hinit]
      simp only [Bool.false_eq_true, if_false, hanpComputeVelocityCommands, h1,
        eq_self_iff_true, if_true]
      split <;> rfl

/-- Witness for C1: a concrete initialized cycle away from the goal runs
exactly the scored sampling search. -/
theorem C1_exactly_one_producer_witness :
    (computeVelocityCommands envBase twist0 sBase).events = [CycleEvent.searchInvoked] := by
  have h := C1_exactly_one_producer envBase twist0 sBase pose0 [⟨1, 1, 0⟩]
    rfl rfl rfl (by decide)
  simpa [envBase] using h

/-- Claim C2: when the trajectory search finds no feasible candidate (the
winning cost is negative), hanpComputeVelocityCommands returns false and
the emitted command velocity is zero in all three components, the drive
velocities having been set to the identity transform. -/
theorem C2_infeasible_search_zero_command (env : Env) (gp : PoseQ)
    (cmd0 : Twist) (s : PlannerState)
    (hinit : s.initialized = true)
    (hcost : (env.findBestTrajectory (mainGenInit gp env.getRobotVel s)).1.cost < 0) :
    (hanpComputeVelocityCommands env gp cmd0 s).ok = false ∧
    (hanpComputeVelocityCommands env gp cmd0 s).cmd = ⟨0, 0, 0⟩ := by
  simp only [hanpComputeVelocityCommands, findBestPath, hinit, if_true]
  rw [if_pos hcost, if_pos hcost]
  exact ⟨rfl, rfl⟩

/-- Witness for C2: a concrete infeasible search fails the cycle and zeroes
a previously nonzero command. -/
theorem C2_infeasible_search_zero_command_witness :
    (hanpComputeVelocityCommands envNoFeasible pose0 twist1 sBase).ok = false ∧
    (hanpComputeVelocityCommands envNoFeasible pose0 twist1 sBase).cmd = ⟨0, 0, 0⟩ :=
  C2_infeasible_search_zero_command envNoFeasible pose0 twist1 sBase rfl (by decide)

/-- Counterexample for C3: checkTrajectory clears an oscillation lock even
though the robot stands exactly at the lock pose, well within the reset
distance — so the stop-rotate feasibility check does clear locks. -/
theorem C3_counterexample :
    s3cex.osc.axX.dir = LockDir.posLocked ∧
    sqDistQ pose0.x pose0.y s3cex.osc.axX.lockX s3cex.osc.axX.lockY ≤
      s3cex.oscResetDist * s3cex.oscResetDist ∧
    (checkTrajectory envBase pose0 pose0 pose0 s3cex).2.osc.axX.dir = LockDir.unlocked := by
  refine ⟨rfl, ?_, rfl⟩
  norm_num [sqDistQ, pose0, s3cex, sBase, oscXLocked]

/-- Claim C3 (amended): the oscillation update run by findBestPath clears a
lock only once the robot has moved beyond the reset distance (x/y) or reset
angle (theta) from the lock pose; setPlan resets locks; but checkTrajectory
(invoked by the stop-rotate feasibility callback) unconditionally resets
every oscillation flag. -/
theorem C3_lock_clearing (env : Env) (pos vel vs : PoseQ) (s : PlannerState)
    (o : OscState) (p2 : PoseQ) (t : Traj) (rd ra ts rs : ℚ) :
    (checkTrajectory env pos vel vs s).2.osc = resetOscillationFlags s.osc ∧
    (o.axX.dir ≠ LockDir.unlocked →
      sqDistQ p2.x p2.y o.axX.lockX o.axX.lockY ≤ rd * rd →
      (updateOscillationFlags o p2 t rd ra ts rs).axX.dir ≠ LockDir.unlocked) ∧
    (o.axY.dir ≠ LockDir.unlocked →
      sqDistQ p2.x p2.y o.axY.lockX o.axY.lockY ≤ rd * rd →
      (updateOscillationFlags o p2 t rd ra ts rs).axY.dir ≠ LockDir.unlocked) ∧
    (o.axTh.dir ≠ LockDir.unlocked →
      (p2.th - o.axTh.lockTh) * (p2.th - o.axTh.lockTh) ≤ ra * ra →
      (updateOscillationFlags o p2 t rd ra ts rs).axTh.dir ≠ LockDir.unlocked) := by
  refine ⟨rfl, ?_, ?_, ?_⟩
  · intro hlock hnear
    simp only [updateOscillationFlags]
    rw [axisResetIfFar_near_lin o.axX p2 rd ra hnear]
    split
    · exact hlock
    · exact axisSetLock_dir_ne _ _ _ _ hlock
  · intro hlock hnear
    simp only [updateOscillationFlags]
    rw [axisResetIfFar_near_lin o.axY p2 rd ra hnear]
    split
    · exact hlock
    · exact axisSetLock_dir_ne _ _ _ _ hlock
  · intro hlock hnear
    simp only [updateOscillationFlags]
    rw [axisResetIfFar_near_ang o.axTh p2 rd ra hnear]
    split
    · exact hlock
    · exact axisSetLock_dir_ne _ _ _ _ hlock

/-- Witness for C3 (amended): a concrete checkTrajectory call resets the
flags, and a concrete locked axis within the reset distance stays locked
through the oscillation update. -/
theorem C3_lock_clearing_witness :
    (checkTrajectory envBase pose0 pose0 pose0 sBase).2.osc = resetOscillationFlags sBase.osc ∧
    (updateOscillationFlags oscXLocked pose0 trajZero 1 1 (1 / 10) (1 / 10)).axX.dir ≠
      LockDir.unlocked := by
  have h := C3_lock_clearing envBase pose0 pose0 pose0 sBase oscXLocked pose0
    trajZero 1 1 (1 / 10) (1 / 10)
  exact ⟨h.1, h.2.1 (by decide) (by norm_num [sqDistQ, pose0, oscXLocked])⟩

/-- Counterexample for C4: with forward point distance 1 and cheat factor 4,
a robot at distance 3 from the goal is within forward point distance times
cheat factor (4), yet the code activates the alignment critic (its branch
tests the squared distance 9 against 1 * 1 * 4). -/
theorem C4_counterexample :
    sqDistQ pose0.x pose0.y (3 : ℚ) 0 ≤
      (s4cex.forwardPointDistance * s4cex.cheatFactor) *
        (s4cex.forwardPointDistance * s4cex.cheatFactor) ∧
    (updatePlanAndLocalCosts envBase pose0 [⟨3, 0, 0⟩] s4cex).alignScale =
      envBase.resolution * s4cex.pdistScale * (1 / 2) ∧
    (updatePlanAndLocalCosts envBase pose0 [⟨3, 0, 0⟩] s4cex).alignScale ≠ 0 := by
  have hgt : sqDistQ pose0.x pose0.y (lastPoseD [(⟨3, 0, 0⟩ : PoseQ)]).x
      (lastPoseD [(⟨3, 0, 0⟩ : PoseQ)]).y >
      s4cex.forwardPointDistance * s4cex.forwardPointDistance * s4cex.cheatFactor := by
    norm_num [sqDistQ, pose0, lastPoseD, s4cex, sBase]
  have hval : (updatePlanAndLocalCosts envBase pose0 [⟨3, 0, 0⟩] s4cex).alignScale =
      envBase.resolution * s4cex.pdistScale * (1 / 2) := by
    simp only [updatePlanAndLocalCosts]
    rw [if_pos hgt]
  refine ⟨?_, hval, ?_⟩
  · norm_num [sqDistQ, pose0, s4cex, sBase]
  · rw [hval]
    norm_num [envBase, s4cex, sBase]

/-- Claim C4 (amended): the heading-alignment critic is activated (scale
resolution * path distance bias * 0.5, targets the plan) exactly when the
squared distance to the goal pose exceeds forward point distance squared
times cheat factor; otherwise its scale is forced to zero and its targets
are left unchanged. -/
theorem C4_alignment_activation (env : Env) (gp : PoseQ) (plan : List PoseQ)
    (s : PlannerState) :
    (sqDistQ gp.x gp.y (lastPoseD plan).x (lastPoseD plan).y >
        s.forwardPointDistance * s.forwardPointDistance * s.cheatFactor →
      (updatePlanAndLocalCosts env gp plan s).alignScale =
          env.resolution * s.pdistScale * (1 / 2) ∧
        (updatePlanAndLocalCosts env gp plan s).alignTargets = plan) ∧
    (sqDistQ gp.x gp.y (lastPoseD plan).x (lastPoseD plan).y ≤
        s.forwardPointDistance * s.forwardPointDistance * s.cheatFactor →
      (updatePlanAndLocalCosts env gp plan s).alignScale = 0 ∧
        (updatePlanAndLocalCosts env gp plan s).alignTargets = s.alignTargets) := by
  constructor
  · intro h
    simp only [updatePlanAndLocalCosts]
    rw [if_pos h]
    exact ⟨rfl, rfl⟩
  · intro h
    simp only [updatePlanAndLocalCosts]
    rw [if_neg (not_lt.mpr h)]
    exact ⟨rfl, rfl⟩

/-- Witness for C4 (amended): a concrete pose beyond the squared threshold
activates the alignment critic with the stated scale. -/
theorem C4_alignment_activation_witness :
    sqDistQ pose0.x pose0.y (lastPoseD [⟨3, 0, 0⟩]).x (lastPoseD [⟨3, 0, 0⟩]).y >
      s4cex.forwardPointDistance * s4cex.forwardPointDistance * s4cex.cheatFactor ∧
    (updatePlanAndLocalCosts envBase pose0 [⟨3, 0, 0⟩] s4cex).alignScale =
      envBase.resolution * s4cex.pdistScale * (1 / 2) := by
  have hgt : sqDistQ pose0.x pose0.y (lastPoseD [(⟨3, 0, 0⟩ : PoseQ)]).x
      (lastPoseD [(⟨3, 0, 0⟩ : PoseQ)]).y >
      s4cex.forwardPointDistance * s4cex.forwardPointDistance * s4cex.cheatFactor := by
    norm_num [sqDistQ, pose0, lastPoseD, s4cex, sBase]
  exact ⟨hgt, ((C4_alignment_activation envBase pose0 [⟨3, 0, 0⟩] s4cex).1 hgt).1⟩

/-- Claim C5: after every reconfiguration the critic scales equal
resolution * path distance bias * 0.5 for the path-distance and
heading-alignment critics, resolution * goal distance bias * 0.5 for the
goal-distance and goal-front-alignment critics, and resolution * obstacle
bias (no 0.5 factor) for the obstacle critic, the stored biases being those
of the applied configuration. -/
theorem C5_critic_scales (env : Env) (c0 : ConfigQ) (s : PlannerState) :
    (reconfigureCB env c0 s).1.pdistScale = (appliedConfig c0 s).path_distance_bias ∧
    (reconfigureCB env c0 s).1.gdistScale = (appliedConfig c0 s).goal_distance_bias ∧
    (reconfigureCB env c0 s).1.occdistScale = (appliedConfig c0 s).occdist_scale ∧
    (reconfigureCB env c0 s).1.pathScale =
      env.resolution * (reconfigureCB env c0 s).1.pdistScale * (1 / 2) ∧
    (reconfigureCB env c0 s).1.alignScale =
      env.resolution * (reconfigureCB env c0 s).1.pdistScale * (1 / 2) ∧
    (reconfigureCB env c0 s).1.goalScale =
      env.resolution * (reconfigureCB env c0 s).1.gdistScale * (1 / 2) ∧
    (reconfigureCB env c0 s).1.goalFrontScale =
      env.resolution * (reconfigureCB env c0 s).1.gdistScale * (1 / 2) ∧
    (reconfigureCB env c0 s).1.obstacleScale =
      env.resolution * (reconfigureCB env c0 s).1.occdistScale :=
  ⟨rfl, rfl, rfl, rfl, rfl, rfl, rfl, rfl⟩

/-- Claim C6: reconfiguration coerces every non-positive per-axis sample
count to 1 with a warning diagnostic and never fails, so the sample-count
vector always has every component at least 1. -/
theorem C6_sample_count_coercion (env : Env) (c0 : ConfigQ) (s : PlannerState) :
    (1 ≤ (reconfigureCB env c0 s).1.vsamples.1 ∧
     1 ≤ (reconfigureCB env c0 s).1.vsamples.2.1 ∧
     1 ≤ (reconfigureCB env c0 s).1.vsamples.2.2) ∧
    ((appliedConfig c0 s).vx_samples ≤ 0 →
      (reconfigureCB env c0 s).1.vsamples.1 = 1 ∧
      ConfigWarning.vxSamplesCoerced ∈ (reconfigureCB env c0 s).2) ∧
    ((appliedConfig c0 s).vy_samples ≤ 0 →
      (reconfigureCB env c0 s).1.vsamples.2.1 = 1 ∧
      ConfigWarning.vySamplesCoerced ∈ (reconfigureCB env c0 s).2) ∧
    ((appliedConfig c0 s).vth_samples ≤ 0 →
      (reconfigureCB env c0 s).1.vsamples.2.2 = 1 ∧
      ConfigWarning.vthSamplesCoerced ∈ (reconfigureCB env c0 s).2) := by
  have hx : (reconfigureCB env c0 s).1.vsamples.1 =
      (if (appliedConfig c0 s).vx_samples ≤ 0 then (1 : ℤ)
       else (appliedConfig c0 s).vx_samples) := rfl
  have hy : (reconfigureCB env c0 s).1.vsamples.2.1 =
      (if (appliedConfig c0 s).vy_samples ≤ 0 then (1 : ℤ)
       else (appliedConfig c0 s).vy_samples) := rfl
  have hz : (reconfigureCB env c0 s).1.vsamples.2.2 =
      (if (appliedConfig c0 s).vth_samples ≤ 0 then (1 : ℤ)
       else (appliedConfig c0 s).vth_samples) := rfl
  have hw : (reconfigureCB env c0 s).2 =
      (if (appliedConfig c0 s).vx_samples ≤ 0 then [ConfigWarning.vxSamplesCoerced] else []) ++
      (if (appliedConfig c0 s).vy_samples ≤ 0 then [ConfigWarning.vySamplesCoerced] else []) ++
      (if (appliedConfig c0 s).vth_samples ≤ 0 then [ConfigWarning.vthSamplesCoerced] else []) := rfl
  refine ⟨⟨?_, ?_, ?_⟩, ?_, ?_, ?_⟩
  · rw [hx]; split <;> omega
  · rw [hy]; split <;> omega
  · rw [hz]; split <;> omega
  · intro h
    exact ⟨by rw [hx]; exact if_pos h, by rw [hw]; simp [h]⟩
  · intro h
    exact ⟨by rw [hy]; exact if_pos h, by rw [hw]; simp [h]⟩
  · intro h
    exact ⟨by rw [hz]; exact if_pos h, by rw [hw]; simp [h]⟩

/-- Witness for C6: a configuration with vx_samples = 0 is coerced to 1 and
records the warning. -/
theorem C6_sample_count_coercion_witness :
    (appliedConfig cfgNeg sBase).vx_samples ≤ 0 ∧
    (reconfigureCB envBase cfgNeg sBase).1.vsamples.1 = 1 ∧
    ConfigWarning.vxSamplesCoerced ∈ (reconfigureCB envBase cfgNeg sBase).2 := by
  refine ⟨by decide, ?_, ?_⟩
  · exact ((C6_sample_count_coercion envBase cfgNeg sBase).2.1 (by decide)).1
  · exact ((C6_sample_count_coercion envBase cfgNeg sBase).2.1 (by decide)).2

/-- Claim C7: setPlan on an initialized planner clears the latch, resets
every oscillation flag, replaces the stored global plan with the supplied
one, and returns the success/failure of the plan replacement. -/
theorem C7_setPlan_replaces_and_resets (env : Env) (plan : List PoseQ)
    (s : PlannerState) (hinit : s.initialized = true) :
    (setPlan env plan s).1 = env.planUtilSetPlanOk plan ∧
    (setPlan env plan s).2.latched = false ∧
    (setPlan env plan s).2.osc.axX.dir = LockDir.unlocked ∧
    (setPlan env plan s).2.osc.axY.dir = LockDir.unlocked ∧
    (setPlan env plan s).2.osc.axTh.dir = LockDir.unlocked ∧
    (setPlan env plan s).2.plannerUtilPlan = plan := by
  simp [setPlan, hinit, resetOscillationFlags]

/-- Witness for C7: a concrete setPlan call on the initialized base state. -/
theorem C7_setPlan_replaces_and_resets_witness :
    (setPlan envBase [pose0] sBase).1 = envBase.planUtilSetPlanOk [pose0] ∧
    (setPlan envBase [pose0] sBase).2.latched = false ∧
    (setPlan envBase [pose0] sBase).2.plannerUtilPlan = [pose0] := by
  have h := C7_setPlan_replaces_and_resets envBase [pose0] sBase rfl
  exact ⟨h.1, h.2.1, h.2.2.2.2.2⟩

/-- updatePlanAndLocalCosts always sets the path critic targets to the new
plan, in both branches of the alignment-activation test. -/
theorem updatePlanAndLocalCosts_pathTargets (env : Env) (gp : PoseQ)
    (plan : List PoseQ) (s : PlannerState) :
    (updatePlanAndLocalCosts env gp plan s).pathTargets = plan := by
  simp only [updatePlanAndLocalCosts]
  split <;> rfl

/-- Counterexample for C8: calling computeVelocityCommands on an
uninitialized planner whose pose and local plan are still obtainable
returns failure, but only after updatePlanAndLocalCosts has already
replaced the critic targets — persistent state is not left unchanged. -/
theorem C8_counterexample :
    s8cex.initialized = false ∧
    (computeVelocityCommands envBase twist0 s8cex).ok = false ∧
    (computeVelocityCommands envBase twist0 s8cex).state.pathTargets ≠ s8cex.pathTargets := by
  have hred : computeVelocityCommands envBase twist0 s8cex =
      ⟨false, twist0, updatePlanAndLocalCosts envBase pose0 [⟨1, 1, 0⟩] s8cex, []⟩ := by
    have hs : s8cex.initialized = false := rfl
    simp only [computeVelocityCommands, envBase, hanpComputeVelocityCommands,
      updatePlanAndLocalCosts_initialized, hs, List.isEmpty_cons, Bool.false_eq_true,
      if_false]
  refine ⟨rfl, ?_, ?_⟩
  · rw [hred]
  · simp only [hred, updatePlanAndLocalCosts_pathTargets]
    simp [s8cex, sBase]

/-- Claim C8 (amended): a cycle failing the pose or plan preconditions
returns failure with the command and all persistent planner state
unchanged; a cycle on an uninitialized planner whose pose and non-empty
plan are obtainable (non-latched branch) also returns failure with the
command untouched, though only after the plan/critic-target update. -/
theorem C8_precondition_failures (env : Env) (cmd0 : Twist) (s : PlannerState) :
    (env.getRobotPose = none →
      computeVelocityCommands env cmd0 s = ⟨false, cmd0, s, []⟩) ∧
    (∀ p, env.getRobotPose = some p → env.getLocalPlan p = none →
      computeVelocityCommands env cmd0 s = ⟨false, cmd0, s, []⟩) ∧
    (∀ p, env.getRobotPose = some p → env.getLocalPlan p = some [] →
      computeVelocityCommands env cmd0 s = ⟨false, cmd0, s, []⟩) ∧
    (∀ p plan, s.initialized = false → env.getRobotPose = some p →
      env.getLocalPlan p = some plan → plan ≠ [] →
      env.isPositionReached p = false →
      (computeVelocityCommands env cmd0 s).ok = false ∧
      (computeVelocityCommands env cmd0 s).cmd = cmd0) := by
  refine ⟨?_, ?_, ?_, ?_⟩
  · intro h
    simp only [computeVelocityCommands, h]
  · intro p h1 h2
    simp only [computeVelocityCommands, h1, h2]
  · intro p h1 h2
    simp only [computeVelocityCommands, h1, h2, List.isEmpty_nil, eq_self_iff_true,
      if_true]
  · intro p plan hinit h1 h2 hne hpr
    cases plan with
    | nil => exact absurd rfl hne
    | cons a l =>
      have hi : (updatePlanAndLocalCosts env p (a :: l) s).initialized = false := by
        rw [updatePlanAndLocalCosts_initialized, hinit]
      simp only [computeVelocityCommands, h1, h2, List.isEmpty_cons,
        Bool.false_eq_true, if_false, hpr, hanpComputeVelocityCommands, hi]
      constructor <;> first | rfl | trivial

/-- Witness for C8 (amended): a failing pose source leaves the concrete
base state and command untouched. -/
theorem C8_precondition_failures_witness :
    computeVelocityCommands envNoPose twist1 sBase = ⟨false, twist1, sBase, []⟩ :=
  (C8_precondition_failures envNoPose twist1 sBase).1 rfl

/-- Claim C9: the two diagnostic publishing flags have no effect on the
trajectory selected by findBestPath, on the drive velocities, or on the
planning-relevant state (oscillation flags, stored best trajectory) — a
two-run equality over all flag settings. -/
theorem C9_diagnostic_flags_no_effect (env : Env) (pos vel : PoseQ)
    (fp : List (ℚ × ℚ)) (s : PlannerState) (b1 c1 b2 c2 : Bool) :
    (findBestPath env pos vel fp { s with publishTrajPc := b1, publishCostGridPc := c1 }).traj =
      (findBestPath env pos vel fp { s with publishTrajPc := b2, publishCostGridPc := c2 }).traj ∧
    (findBestPath env pos vel fp { s with publishTrajPc := b1, publishCostGridPc := c1 }).drive =
      (findBestPath env pos vel fp { s with publishTrajPc := b2, publishCostGridPc := c2 }).drive ∧
    (findBestPath env pos vel fp { s with publishTrajPc := b1, publishCostGridPc := c1 }).state.osc =
      (findBestPath env pos vel fp { s with publishTrajPc := b2, publishCostGridPc := c2 }).state.osc ∧
    (findBestPath env pos vel fp { s with publishTrajPc := b1, publishCostGridPc := c1 }).state.resultTraj =
      (findBestPath env pos vel fp { s with publishTrajPc := b2, publishCostGridPc := c2 }).state.resultTraj := by
  cases b1 <;> cases b2 <;> exact ⟨rfl, rfl, rfl, rfl⟩

/-- Claim C10: isGoalReached is total and returns true exactly when the
planner is initialized, the robot pose is obtainable, and the latched
stop-rotate controller's goal check succeeds on it — in particular it
returns false (rather than raising) when uninitialized or without a pose. -/
theorem C10_isGoalReached_characterization (env : Env) (s : PlannerState) :
    isGoalReached env s = true ↔
      s.initialized = true ∧
      ∃ p, env.getRobotPose = some p ∧ env.latchedIsGoalReached p = true := by
  unfold isGoalReached
  cases hinit : s.initialized with
  | false => simp
  | true =>
    cases hp : env.getRobotPose with
    | none => simp
    | some p => simp
